import Mathlib

/-!
Verification development for the BLE WebSocket bridge (ipixelcli.py).

Every definition in this file is a shallow embedding of a piece of the
source file src/ipixelcli.py.  External collaborators (the bleak BLE
library, the websockets library, the per-command encoders living in the
separate commands module) are modelled as scripted environments: streams
of outcomes indexed by how many times the corresponding primitive has
been invoked.  The control flow of the embedded functions is translated
line by line from the Python source; loop and recursion constructs take
an explicit fuel argument, with a dedicated out-of-fuel result, so that
a run that has not finished after a given number of iterations is
observable.
-/

namespace IPixel

/-- Keys of the module-level COMMANDS dict (ipixelcli.py lines 9-21).
The encoder functions themselves live in the external commands module
and are part of the scripted environment, not of this embedding. -/
def COMMANDS : List String :=
  ["clear", "set_brightness", "set_clock_mode", "set_fun_mode", "set_pixel",
   "delete_screen", "send_text", "set_screen", "set_speed", "send_animation",
   "set_orientation"]

/-- The fixed GATT characteristic UUID every payload is written to
(ipixelcli.py lines 64 and 102). -/
def CHAR_UUID : String := "0000fa02-0000-1000-8000-00805f9b34fb"

/-- Outcome of one connection attempt, i.e. of one iteration of
BleakClient(address) followed by await client.connect() and the
client.is_connected test (ipixelcli.py lines 28-30):
* ok        - connect returned and is_connected is true;
* noconn    - connect returned without raising but is_connected is false;
* bleakErr  - the attempt raised a BleakError (caught at line 33);
* otherExn  - the attempt raised an exception that is not a BleakError
              (no handler for it inside connect_to_device). -/
inductive COutcome
  | ok
  | noconn
  | bleakErr (msg : String)
  | otherExn (msg : String)
deriving DecidableEq

/-- Result of running the connect_to_device loop.  attempts counts how
many connect attempts were started in total, sleeps how many of the
5-second waits of line 36 were executed.  outOfFuel means the loop was
still running after consuming all fuel. -/
inductive ConnResult
  | gotHandle (attempts sleeps : Nat)
  | noHandle (attempts sleeps : Nat)
  | raisedOther (attempts sleeps : Nat)
  | outOfFuel (attempts sleeps : Nat)
deriving DecidableEq

/-- Embedding of connect_to_device (ipixelcli.py lines 24-38).
Arguments after maxRetries: remaining fuel (one unit per loop
iteration), the retries counter of line 25, the index of the next
connect attempt in the outcome stream (equal to the number of attempts
started so far), and the number of sleeps executed so far.
Per the source: the while condition retries < max_retries is tested
first; a successful, connected attempt returns the client; an attempt
that returns un-connected loops again WITHOUT touching retries; a
BleakError increments retries and sleeps 5 seconds; any other exception
propagates (there is no handler for it); when the while condition fails
the function logs and returns None. -/
def connect_to_device (out : Nat → COutcome) (maxRetries : Nat) :
    Nat → Nat → Nat → Nat → ConnResult
  | 0, retries, idx, sleeps =>
    if retries < maxRetries then ConnResult.outOfFuel idx sleeps
    else ConnResult.noHandle idx sleeps
  | Nat.succ fuel, retries, idx, sleeps =>
    if retries < maxRetries then
      match out idx with
      | COutcome.ok => ConnResult.gotHandle (idx + 1) sleeps
      | COutcome.noconn => connect_to_device out maxRetries fuel retries (idx + 1) sleeps
      | COutcome.bleakErr _ =>
          connect_to_device out maxRetries fuel (retries + 1) (idx + 1) (sleeps + 1)
      | COutcome.otherExn _ => ConnResult.raisedOther (idx + 1) sleeps
    else ConnResult.noHandle idx sleeps

/-- Total number of connect attempts started before the result. -/
def ConnResult.attempts : ConnResult → Nat
  | ConnResult.gotHandle a _ => a
  | ConnResult.noHandle a _ => a
  | ConnResult.raisedOther a _ => a
  | ConnResult.outOfFuel a _ => a

/-- True when the loop actually returned (or raised) rather than
running out of fuel. -/
def ConnResult.finished : ConnResult → Bool
  | ConnResult.outOfFuel _ _ => false
  | _ => true

/-- True when the run ended with an exception propagating out of
connect_to_device. -/
def ConnResult.isRaised : ConnResult → Bool
  | ConnResult.raisedOther _ _ => true
  | _ => false

/-- Splitting a character list at the first occurrence of the
character =, returning the part before and the (verbatim) part after;
none when no = occurs.  This is Python's s.split("=", 1) combined with
the "=" in s test of ipixelcli.py lines 57-58. -/
def splitEqAux : List Char → Option (List Char × List Char)
  | [] => none
  | c :: cs =>
    if c = '=' then some ([], cs)
    else
      match splitEqAux cs with
      | some (k, v) => some (c :: k, v)
      | none => none

/-- String-level wrapper of splitEqAux: some (key, value) when the
token contains =, none otherwise. -/
def splitKV (s : String) : Option (String × String) :=
  match splitEqAux s.toList with
  | some (k, v) => some (String.mk k, String.mk v)
  | none => none

/-- key.replace(chr(45), chr(95)) of ipixelcli.py line 59: every dash
in the keyword key is rewritten to an underscore. -/
def normKey (s : String) : String :=
  String.mk (s.toList.map (fun c => if c = '-' then '_' else c))

/-- The parameter-classification loop of ipixelcli.py lines 54-61 (and
identically lines 92-99): each token with an = becomes one keyword
entry, split at the first =, with the key normalized; tokens without =
are appended to the positional list in order.  The keyword mapping is
modelled as the insertion sequence of (key, value) pairs; Python's dict
additionally applies last-wins override on equal keys, which none of
the properties below observes. -/
def parseParams : List String → List String × List (String × String)
  | [] => ([], [])
  | p :: rest =>
    let pr := parseParams rest
    match splitKV p with
    | some kv => (pr.1, (normKey kv.1, kv.2) :: pr.2)
    | none => (p :: pr.1, pr.2)

/-- A JSON value sitting in the command field of the request object:
a string; a hashable non-string value (a number, boolean or null, for
which the membership test of line 53 simply evaluates to false); or an
unhashable non-string value (a JSON array or object, for which the
membership test itself raises a TypeError - in CPython its text reads
unhashable type: followed by the quoted runtime type name; the
constructor carries that text). -/
inductive JVal
  | str (s : String)
  | nonStrHashable
  | unhashable (errMsg : String)
deriving DecidableEq

/-- One inbound WebSocket message, after the json.loads of line 49:
either malformed JSON (json.loads raised, with the exception text), or
a JSON object with an optional command field and an optional params
field (a list of strings, per the protocol of the spec). -/
inductive Msg
  | malformed (errMsg : String)
  | obj (command : Option JVal) (params : Option (List String))
deriving DecidableEq

/-- Outcome of the command_name in COMMANDS test of line 53: the name
was found as a registered key; the test evaluated to false; or the
test itself raised a TypeError (unhashable command value). -/
inductive ResolveOutcome
  | found (name : String)
  | notFound
  | typeError (errMsg : String)
deriving DecidableEq

/-- command_data.get("command") followed by the command_name in
COMMANDS test of line 53.  A missing field yields None, which is
hashable and not a dict key, so the test is false; a hashable
non-string likewise; an unhashable value (JSON array or object) makes
the test raise a TypeError, which the blanket handler of line 68 will
catch. -/
def resolveCommand : Option JVal → ResolveOutcome
  | some (JVal.str s) =>
      if COMMANDS.contains s then ResolveOutcome.found s else ResolveOutcome.notFound
  | some JVal.nonStrHashable => ResolveOutcome.notFound
  | some (JVal.unhashable e) => ResolveOutcome.typeError e
  | none => ResolveOutcome.notFound

/-- Behaviour of an external encoder call COMMANDS[name](*pos, **kw):
either a byte payload or a raised exception (with its text). -/
inductive EncResult
  | bytes (payload : List Nat)
  | raises (msg : String)
deriving DecidableEq

/-- Outcome of one client.write_gatt_char call: ok, a raised
BleakError, or some other raised exception. -/
inductive WriteOutcome
  | ok
  | bleakError (msg : String)
  | otherExn (msg : String)
deriving DecidableEq

/-- A response object as built at lines 65, 67 and 69. -/
inductive Response
  | success (command : String)
  | error (message : String)
deriving DecidableEq

/-- Observable effects of processing one inbound message: the response
produced, the write attempts performed (characteristic UUID and
payload), and the encoder invocations performed (name, positional
arguments, keyword arguments). -/
structure StepOut where
  response : Response
  writes : List (String × List Nat)
  encCalls : List (String × List String × List (String × String))
deriving DecidableEq

/-- The per-message pipeline of handle_websocket, i.e. the inner
try/except of ipixelcli.py lines 48-69: decode, resolve against
COMMANDS, classify parameters, invoke the encoder, write the payload to
CHAR_UUID, and build the response.  The except Exception handler at
line 68 turns ANY exception raised inside - a json.loads failure, an
encoder failure, and also a BleakError raised by write_gatt_char at
line 64 - into an error response carrying the exception text.  The
same handler catches the TypeError an unhashable command value makes
the line-53 membership test raise, before the else branch of line 66
is ever reached. -/
def processMessage (enc : String → List String → List (String × String) → EncResult)
    (wout : WriteOutcome) : Msg → StepOut
  | Msg.malformed e => ⟨Response.error e, [], []⟩
  | Msg.obj command params =>
    match resolveCommand command with
    | ResolveOutcome.typeError e => ⟨Response.error e, [], []⟩
    | ResolveOutcome.notFound => ⟨Response.error "Unknown command", [], []⟩
    | ResolveOutcome.found name =>
      let pk := parseParams (params.getD [])
      match enc name pk.1 pk.2 with
      | EncResult.raises e => ⟨Response.error e, [], [(name, pk.1, pk.2)]⟩
      | EncResult.bytes d =>
        match wout with
        | WriteOutcome.ok =>
            ⟨Response.success name, [(CHAR_UUID, d)], [(name, pk.1, pk.2)]⟩
        | WriteOutcome.bleakError e =>
            ⟨Response.error e, [(CHAR_UUID, d)], [(name, pk.1, pk.2)]⟩
        | WriteOutcome.otherExn e =>
            ⟨Response.error e, [(CHAR_UUID, d)], [(name, pk.1, pk.2)]⟩

/-- Outcome of one await websocket.recv() (line 47): a message, or the
peer closed the connection (websockets.ConnectionClosed raised). -/
inductive RecvOutcome
  | msg (m : Msg)
  | closed
deriving DecidableEq

/-- The scripted environment of one client session: the stream of BLE
connect-attempt outcomes, the stream of received messages, the outcome
of each write attempt (indexed by write-attempt count), whether each
send succeeds (false means websockets.ConnectionClosed was raised), the
external encoders, and whether each disconnect call succeeds (false
means it raised). -/
structure Script where
  connect : Nat → COutcome
  recv : Nat → RecvOutcome
  write : Nat → WriteOutcome
  send : Nat → Bool
  enc : String → List String → List (String × String) → EncResult
  disconnectOk : Nat → Bool

/-- Cumulative observable effects of a session: total connect attempts
started, 5-second retry sleeps executed, receive calls completed,
responses computed for sending, write attempts (UUID and payload),
completed send calls, and disconnect calls issued. -/
structure Trace where
  connectAttempts : Nat
  sleeps : Nat
  recvs : Nat
  responses : List Response
  writes : List (String × List Nat)
  sends : Nat
  disconnects : Nat
deriving DecidableEq

/-- How the while True receive loop of lines 46-71 ended:
closedByPeer means websockets.ConnectionClosed was raised (by recv or
send); bleakLost means a BleakError escaped the loop body (this is what
the except BleakError handler at line 74 is written for); outOfFuel
means the loop was still iterating. -/
inductive SessEnd
  | closedByPeer
  | bleakLost
  | outOfFuel
deriving DecidableEq

def SessEnd.isBleakLost : SessEnd → Bool
  | SessEnd.bleakLost => true
  | _ => false

/-- The while True loop of handle_websocket (ipixelcli.py lines 46-71):
receive a message, run the inner pipeline (processMessage, which
already contains the blanket except Exception of line 68), then send
the JSON-encoded response.  The only exceptions that can escape the
loop body come from recv and send, and those raise
websockets.ConnectionClosed, never a BleakError; accordingly no branch
of this loop produces SessEnd.bleakLost. -/
def sessionLoop (sc : Script) : Nat → Trace → Trace × SessEnd
  | 0, tr => (tr, SessEnd.outOfFuel)
  | Nat.succ fuel, tr =>
    match sc.recv tr.recvs with
    | RecvOutcome.closed => ({ tr with recvs := tr.recvs + 1 }, SessEnd.closedByPeer)
    | RecvOutcome.msg m =>
      let out := processMessage sc.enc (sc.write tr.writes.length) m
      let tr2 : Trace :=
        { tr with
          recvs := tr.recvs + 1,
          responses := tr.responses ++ [out.response],
          writes := tr.writes ++ out.writes,
          sends := tr.sends + 1 }
      if sc.send tr.sends then sessionLoop sc fuel tr2
      else (tr2, SessEnd.closedByPeer)

/-- How a handle_websocket call ended: normal return, early return
because acquisition returned None (line 43), an exception raised by a
connect attempt propagating, an exception raised by the disconnect in
the finally block propagating, or out of fuel. -/
inductive HwEnd
  | normal
  | connectFailed
  | connectRaised
  | disconnectRaised
  | outOfFuel
deriving DecidableEq

/-- Ends of handle_websocket that occur after a device session was
acquired (traversal of the finally block of line 77). -/
def HwEnd.acquired : HwEnd → Bool
  | HwEnd.normal => true
  | HwEnd.disconnectRaised => true
  | _ => false

/-- Embedding of handle_websocket (ipixelcli.py lines 40-78).  The
first Nat is fuel for the recursive re-entry at line 76 (except
BleakError: await handle_websocket(...)), the second is fuel for the
connect loop, the third fuel for the receive loop.  Control flow per
the source: acquire via connect_to_device (max_retries defaults to 5);
on None return silently; run the receive loop; ConnectionClosed ends it
normally; a BleakError escaping the loop body would re-enter the whole
handler recursively; in every case the finally block calls
client.disconnect(), whose own failure propagates (there is no handler
around it). -/
def handle_websocket (sc : Script) : Nat → Nat → Nat → Trace → Trace × HwEnd
  | 0, _, _, tr => (tr, HwEnd.outOfFuel)
  | Nat.succ rfuel, cfuel, lfuel, tr =>
    match connect_to_device sc.connect 5 cfuel 0 tr.connectAttempts tr.sleeps with
    | ConnResult.outOfFuel i s =>
        ({ tr with connectAttempts := i, sleeps := s }, HwEnd.outOfFuel)
    | ConnResult.raisedOther i s =>
        ({ tr with connectAttempts := i, sleeps := s }, HwEnd.connectRaised)
    | ConnResult.noHandle i s =>
        ({ tr with connectAttempts := i, sleeps := s }, HwEnd.connectFailed)
    | ConnResult.gotHandle i s =>
      match sessionLoop sc lfuel { tr with connectAttempts := i, sleeps := s } with
      | (tr1, SessEnd.outOfFuel) => (tr1, HwEnd.outOfFuel)
      | (tr1, SessEnd.closedByPeer) =>
        ({ tr1 with disconnects := tr1.disconnects + 1 },
          if sc.disconnectOk tr1.disconnects then HwEnd.normal else HwEnd.disconnectRaised)
      | (tr1, SessEnd.bleakLost) =>
        match handle_websocket sc rfuel cfuel lfuel tr1 with
        | (tr2, HwEnd.outOfFuel) => (tr2, HwEnd.outOfFuel)
        | (tr2, e2) =>
          ({ tr2 with disconnects := tr2.disconnects + 1 },
            if sc.disconnectOk tr2.disconnects then
              match e2 with
              | HwEnd.connectRaised => HwEnd.connectRaised
              | HwEnd.disconnectRaised => HwEnd.disconnectRaised
              | _ => HwEnd.normal
            else HwEnd.disconnectRaised)

/-- How an execute_command call ended: success print, unknown-command
print, early return on failed acquisition, an exception from a connect
attempt, from the encoder, from the write, or from the disconnect in
the finally block (in Python an exception raised inside finally
replaces any in-flight exception), or out of fuel. -/
inductive ExecEnd
  | okSuccess
  | okUnknown
  | connectFailed
  | connectRaised
  | encRaised
  | writeRaised
  | disconnectRaised
  | outOfFuel
deriving DecidableEq

/-- Ends of execute_command that occur after a device session was
acquired (traversal of the finally block of line 106). -/
def ExecEnd.acquired : ExecEnd → Bool
  | ExecEnd.okSuccess => true
  | ExecEnd.okUnknown => true
  | ExecEnd.encRaised => true
  | ExecEnd.writeRaised => true
  | ExecEnd.disconnectRaised => true
  | _ => false

def emptyTrace (i s : Nat) : Trace := ⟨i, s, 0, [], [], 0, 0⟩

/-- Embedding of execute_command (ipixelcli.py lines 85-107), the
one-shot CLI mode.  Unlike the WebSocket loop there is no except
handler around the body: an encoder or write failure runs the finally
block (disconnect) and then propagates. -/
def execute_command (sc : Script) (name : String) (params : List String)
    (cfuel : Nat) : Trace × ExecEnd :=
  match connect_to_device sc.connect 5 cfuel 0 0 0 with
  | ConnResult.outOfFuel i s => (emptyTrace i s, ExecEnd.outOfFuel)
  | ConnResult.raisedOther i s => (emptyTrace i s, ExecEnd.connectRaised)
  | ConnResult.noHandle i s => (emptyTrace i s, ExecEnd.connectFailed)
  | ConnResult.gotHandle i s =>
    let body : ExecEnd × List (String × List Nat) :=
      if COMMANDS.contains name then
        let pk := parseParams params
        match sc.enc name pk.1 pk.2 with
        | EncResult.raises _ => (ExecEnd.encRaised, [])
        | EncResult.bytes d =>
          match sc.write 0 with
          | WriteOutcome.ok => (ExecEnd.okSuccess, [(CHAR_UUID, d)])
          | WriteOutcome.bleakError _ => (ExecEnd.writeRaised, [(CHAR_UUID, d)])
          | WriteOutcome.otherExn _ => (ExecEnd.writeRaised, [(CHAR_UUID, d)])
      else (ExecEnd.okUnknown, [])
    ({ emptyTrace i s with writes := body.2, disconnects := 1 },
      if sc.disconnectOk 0 then body.1 else ExecEnd.disconnectRaised)

/-- The argparse result of ipixelcli.py lines 110-117.  The address
field is always present because the -a flag is declared required (line
115); these four flags are the whole CLI surface. -/
structure Args where
  server : Bool
  port : Nat
  command : Option (List String)
  address : String

/-- What the process does after argument parsing. -/
inductive MainAction
  | startServer (host : String) (port : Nat) (address : String)
  | runCommand (name : String) (params : List String) (address : String)
  | usageError
deriving DecidableEq

/-- The default of the -p flag (ipixelcli.py line 112). -/
def defaultPort : Nat := 4444

/-- The mode dispatch of the main block (ipixelcli.py lines 119-126),
paired with the process exit status the chosen branch establishes when
the action itself completes without an uncaught exception.  In the
server branch start_server (lines 80-83) passes its ip argument
straight to serve, and the main block hard-codes that argument to
"localhost" (line 120).  The no-mode branch (lines 125-126) prints the
error message and then simply falls off the end of the script, so the
interpreter exits with status 0 - there is no sys.exit call anywhere
in the file.  Python's truthiness makes an empty args.command list take
the error branch as well (argparse cannot produce one, since -c is
declared with one-or-more arguments). -/
def mainRun (a : Args) : MainAction × Nat :=
  if a.server then (MainAction.startServer "localhost" a.port a.address, 0)
  else
    match a.command with
    | some (n :: ps) => (MainAction.runCommand n ps a.address, 0)
    | some [] => (MainAction.usageError, 0)
    | none => (MainAction.usageError, 0)

/-! ## Helper lemmas about the connect loop -/

/-- Sanity check on the parameter classifier: the spec's worked
example, including dash normalization of the keyword key. -/
theorem parseParams_example :
    parseParams ["x", "y=5=6", "pixel-x=1", "z"] =
      (["x", "z"], [("y", "5=6"), ("pixel_x", "1")]) := by decide

/-- When every attempt either connects or raises a BleakError, the
connect loop finishes within maxRetries iterations beyond the current
retry count, and starts at most maxRetries - retries further
attempts. -/
theorem connect_aux_bounded (out : Nat → COutcome) (m : Nat)
    (h : ∀ i, out i = COutcome.ok ∨ ∃ e, out i = COutcome.bleakErr e) :
    ∀ fuel retries idx sleeps, m ≤ retries + fuel →
      (connect_to_device out m fuel retries idx sleeps).finished = true ∧
      (connect_to_device out m fuel retries idx sleeps).attempts ≤ idx + (m - retries) := by
  intro fuel
  induction fuel with
  | zero =>
    intro r i s hle
    have hr : ¬ r < m := by omega
    simp [connect_to_device, hr, ConnResult.finished, ConnResult.attempts]
  | succ f ih =>
    intro r i s hle
    simp only [connect_to_device]
    by_cases hr : r < m
    · simp only [hr, if_true]
      rcases h i with hok | ⟨e, hb⟩
      · rw [hok]
        refine ⟨rfl, ?_⟩
        show i + 1 ≤ i + (m - r)
        omega
      · rw [hb]
        have hrec := ih (r + 1) (i + 1) (s + 1) (by omega)
        refine ⟨hrec.1, ?_⟩
        show (connect_to_device out m f (r + 1) (i + 1) (s + 1)).attempts ≤ i + (m - r)
        have := hrec.2
        omega
    · simp [hr, ConnResult.finished, ConnResult.attempts]

/-- When every attempt raises a BleakError, the connect loop performs
exactly the remaining m - retries attempts and the same number of
5-second sleeps, then returns None. -/
theorem connect_aux_allfail (out : Nat → COutcome) (m : Nat)
    (h : ∀ i, ∃ e, out i = COutcome.bleakErr e) :
    ∀ fuel retries idx sleeps, retries ≤ m → m ≤ retries + fuel →
      connect_to_device out m fuel retries idx sleeps =
        ConnResult.noHandle (idx + (m - retries)) (sleeps + (m - retries)) := by
  intro fuel
  induction fuel with
  | zero =>
    intro r i s h1 h2
    have hr : ¬ r < m := by omega
    have h3 : m - r = 0 := by omega
    simp [connect_to_device, hr, h3]
  | succ f ih =>
    intro r i s h1 h2
    simp only [connect_to_device]
    by_cases hr : r < m
    · simp only [hr, if_true]
      obtain ⟨e, hb⟩ := h i
      rw [hb]
      rw [ih (r + 1) (i + 1) (s + 1) (by omega) (by omega)]
      have e1 : i + 1 + (m - (r + 1)) = i + (m - r) := by omega
      have e2 : s + 1 + (m - (r + 1)) = s + (m - r) := by omega
      rw [e1, e2]
    · have h3 : m - r = 0 := by omega
      simp [hr, h3]

/-- As long as no attempt raises a non-BleakError exception, no run of
the connect loop ends with an exception propagating. -/
theorem connect_aux_noraise (out : Nat → COutcome) (m : Nat)
    (h : ∀ i e, out i ≠ COutcome.otherExn e) :
    ∀ fuel retries idx sleeps,
      (connect_to_device out m fuel retries idx sleeps).isRaised = false := by
  intro fuel
  induction fuel with
  | zero =>
    intro r i s
    by_cases hr : r < m <;> simp [connect_to_device, hr, ConnResult.isRaised]
  | succ f ih =>
    intro r i s
    simp only [connect_to_device]
    by_cases hr : r < m
    · simp only [hr, if_true]
      cases hoc : out i with
      | ok => rfl
      | noconn => exact ih r (i + 1) s
      | bleakErr e => exact ih (r + 1) (i + 1) (s + 1)
      | otherExn e => exact absurd hoc (h i e)
    · simp [hr, ConnResult.isRaised]

/-! ## Helper lemmas about the session loop -/

/-- The receive loop never starts a connect attempt, never issues a
disconnect, and never lets a BleakError escape its body (the blanket
except Exception of line 68 already consumed it). -/
theorem sessionLoop_preserves (sc : Script) (fuel : Nat) :
    ∀ tr, ((sessionLoop sc fuel tr).1).connectAttempts = tr.connectAttempts ∧
      ((sessionLoop sc fuel tr).1).disconnects = tr.disconnects ∧
      ((sessionLoop sc fuel tr).2).isBleakLost = false := by
  induction fuel with
  | zero => intro tr; exact ⟨rfl, rfl, rfl⟩
  | succ fuel ih =>
    intro tr
    simp only [sessionLoop]
    cases hrecv : sc.recv tr.recvs with
    | closed => exact ⟨rfl, rfl, rfl⟩
    | msg m =>
      simp only
      by_cases hs : sc.send tr.sends
      · simp only [hs, if_true]
        exact ih _
      · simp only [hs, if_false]
        exact ⟨rfl, rfl, rfl⟩

/-! ## C2: bounded connect acquisition -/

/-- C2, counterexample.  The claim says connect_to_device attempts to
connect at most max_retries = 5 times and always terminates.  In the
source, an attempt whose connect() call returns without raising but
whose is_connected test is false (COutcome.noconn) re-enters the loop
WITHOUT incrementing the retries counter (lines 30-35: retries is only
incremented in the except BleakError branch).  Under an environment in
which every attempt behaves that way, after 12 loop iterations the
function has started 12 connect attempts - more than max_retries - and
is still running. -/
theorem c2_counterexample :
    connect_to_device (fun _ => COutcome.noconn) 5 12 0 0 0 =
      ConnResult.outOfFuel 12 0 := by decide

/-- C2, amended: provided every connect attempt either reaches the
connected state or raises a BleakError (the failure mode the loop
counts), acquisition finishes within max_retries + 1 iterations,
starts at most max_retries attempts, and - when every attempt fails -
returns None after exactly max_retries attempts with exactly
max_retries of the 5-second waits (one after every failed attempt,
hence one between any two consecutive attempts). -/
theorem c2_amended (out : Nat → COutcome) (m : Nat)
    (h : ∀ i, out i = COutcome.ok ∨ ∃ e, out i = COutcome.bleakErr e) :
    (connect_to_device out m (m + 1) 0 0 0).finished = true ∧
    (connect_to_device out m (m + 1) 0 0 0).attempts ≤ m ∧
    ((∀ i, ∃ e, out i = COutcome.bleakErr e) →
      connect_to_device out m (m + 1) 0 0 0 = ConnResult.noHandle m m) := by
  have hb := connect_aux_bounded out m h (m + 1) 0 0 0 (by omega)
  refine ⟨hb.1, by simpa using hb.2, fun hall => ?_⟩
  have := connect_aux_allfail out m hall (m + 1) 0 0 0 (by omega) (by omega)
  simpa using this

/-- An environment in which every connect attempt raises a
BleakError. -/
def allBleak : Nat → COutcome := fun _ => COutcome.bleakErr "fail"

/-- C2, witness: the amended theorem applied to the environment in
which every attempt raises a BleakError, with max_retries = 5. -/
theorem c2_witness :
    (∀ i, allBleak i = COutcome.ok ∨ ∃ e, allBleak i = COutcome.bleakErr e) ∧
    connect_to_device allBleak 5 6 0 0 0 = ConnResult.noHandle 5 5 :=
  ⟨fun _ => Or.inr ⟨"fail", rfl⟩,
    (c2_amended allBleak 5
      (fun _ => Or.inr ⟨"fail", rfl⟩)).2.2 (fun _ => ⟨"fail", rfl⟩)⟩

/-! ## C3: no exception escapes connect_to_device -/

/-- C3, counterexample.  The claim says that for EVERY failure
behaviour of the BLE connect primitive, no exception propagates past
connect_to_device.  The source only catches BleakError (line 33); an
attempt raising any other exception propagates out of the function on
the very first attempt. -/
theorem c3_counterexample :
    connect_to_device (fun _ => COutcome.otherExn "boom") 5 6 0 0 0 =
      ConnResult.raisedOther 1 0 := by decide

/-- C3, amended: as long as no connect attempt raises an exception
other than BleakError, no run of connect_to_device (from any loop
state) ends with an exception propagating - BleakError failures are
consumed by the except branch and reported only through the return
value. -/
theorem c3_amended (out : Nat → COutcome) (m : Nat)
    (h : ∀ i e, out i ≠ COutcome.otherExn e) :
    ∀ fuel retries idx sleeps,
      (connect_to_device out m fuel retries idx sleeps).isRaised = false :=
  connect_aux_noraise out m h

/-- C3, witness: the amended theorem applied to the all-BleakError
environment with max_retries = 5. -/
theorem c3_witness :
    (∀ i e, allBleak i ≠ COutcome.otherExn e) ∧
    (connect_to_device allBleak 5 6 0 0 0).isRaised = false :=
  ⟨fun _ _ hcontra => COutcome.noConfusion hcontra,
    c3_amended allBleak 5
      (fun _ _ hcontra => COutcome.noConfusion hcontra) 6 0 0 0⟩

/-! ## C5: envelope parameter classification -/

/-- splitEqAux finds nothing exactly when the token has no =. -/
theorem splitEqAux_isNone :
    ∀ l : List Char, (splitEqAux l).isNone = !(l.contains '=') := by
  intro l
  induction l with
  | nil => rfl
  | cons c cs ih =>
    by_cases hc : c = '='
    · simp [splitEqAux, hc]
    · simp only [splitEqAux, hc, if_false]
      cases hsa : splitEqAux cs with
      | some kv =>
        rw [hsa] at ih
        simp at ih
        simp [ih]
      | none =>
        rw [hsa] at ih
        simp at ih
        simp [ih, Ne.symm hc]

/-- splitEqAux splits at the FIRST = only, keeping everything after it
verbatim. -/
theorem splitEqAux_first :
    ∀ k v : List Char, k.contains '=' = false →
      splitEqAux (k ++ '=' :: v) = some (k, v) := by
  intro k
  induction k with
  | nil => intro v _; simp [splitEqAux]
  | cons c cs ih =>
    intro v hk
    simp only [List.contains_cons, Bool.or_eq_false_iff, beq_eq_false_iff_ne] at hk
    have hc : ¬ c = '=' := Ne.symm hk.1
    simp only [List.cons_append, splitEqAux, hc, if_false, List.append_eq]
    rw [ih v hk.2]

/-- C5: the parameter-classification loop, confirmed.  For every list
of string tokens: (1) the positional list is exactly the sub-sequence
of tokens without an =, in order; (2) the keyword entries are, in
token order, exactly one entry per =-carrying token, whose key is the
part before the first = with every dash rewritten to an underscore and
whose value is the verbatim remainder; (3) every token is classified
exactly once; (4) a token is keyword exactly when it contains =; and
(5) the split really happens at the first = only, the value keeping
any later = characters. -/
theorem c5_theorem :
    (∀ ps : List String,
      (parseParams ps).1 = ps.filter (fun p => (splitKV p).isNone)) ∧
    (∀ ps : List String,
      (parseParams ps).2 = ps.filterMap
        (fun p => (splitKV p).map (fun kv => (normKey kv.1, kv.2)))) ∧
    (∀ ps : List String,
      (parseParams ps).1.length + (parseParams ps).2.length = ps.length) ∧
    (∀ s : String, (splitKV s).isNone = !(s.toList.contains '=')) ∧
    (∀ k v : List Char, k.contains '=' = false →
      splitEqAux (k ++ '=' :: v) = some (k, v)) := by
  have h1 : ∀ ps : List String,
      (parseParams ps).1 = ps.filter (fun p => (splitKV p).isNone) := by
    intro ps
    induction ps with
    | nil => rfl
    | cons p rest ih =>
      simp only [parseParams]
      cases hs : splitKV p with
      | some kv => simp [List.filter_cons, hs, ih]
      | none => simp [List.filter_cons, hs, ih]
  have h2 : ∀ ps : List String,
      (parseParams ps).2 = ps.filterMap
        (fun p => (splitKV p).map (fun kv => (normKey kv.1, kv.2))) := by
    intro ps
    induction ps with
    | nil => rfl
    | cons p rest ih =>
      simp only [parseParams]
      cases hs : splitKV p with
      | some kv => simp [List.filterMap_cons, hs, ih]
      | none => simp [List.filterMap_cons, hs, ih]
  refine ⟨h1, h2, ?_, ?_, splitEqAux_first⟩
  · intro ps
    induction ps with
    | nil => rfl
    | cons p rest ih =>
      simp only [parseParams]
      cases hs : splitKV p with
      | some kv =>
        show (parseParams rest).1.length +
          ((normKey kv.1, kv.2) :: (parseParams rest).2).length = (p :: rest).length
        simp only [List.length_cons]
        omega
      | none =>
        show (p :: (parseParams rest).1).length +
          (parseParams rest).2.length = (p :: rest).length
        simp only [List.length_cons]
        omega
  · intro s
    have hkv : (splitKV s).isNone = (splitEqAux s.toList).isNone := by
      simp only [splitKV]
      cases splitEqAux s.toList with
      | some kv => rfl
      | none => rfl
    rw [hkv]
    exact splitEqAux_isNone s.toList

/-- C5, witness: the theorem instantiated on the spec's own example
["x", "y=5=6", "z"], plus the first-split conjunct applied at the
=-free prefix of "y=5=6". -/
theorem c5_witness :
    ("y".toList.contains '=' = false) ∧
    splitEqAux ("y".toList ++ '=' :: "5=6".toList) = some ("y".toList, "5=6".toList) ∧
    (parseParams ["x", "y=5=6", "z"]).1 =
      (["x", "y=5=6", "z"].filter (fun p => (splitKV p).isNone)) :=
  ⟨by decide, c5_theorem.2.2.2.2 "y".toList "5=6".toList (by decide),
    c5_theorem.1 ["x", "y=5=6", "z"]⟩

/-! ## C4: successful dispatch performs exactly one write -/

/-- C4: dispatch of an envelope whose command name is registered and
whose arguments the encoder accepts, with the write succeeding,
performs exactly one device write - to the fixed characteristic
CHAR_UUID, carrying exactly the bytes the encoder returned - invokes
the encoder exactly once, and produces the success response naming the
command. -/
theorem c4_theorem (enc : String → List String → List (String × String) → EncResult)
    (name : String) (params : Option (List String)) (d : List Nat)
    (hreg : COMMANDS.contains name = true)
    (henc : enc name (parseParams (params.getD [])).1 (parseParams (params.getD [])).2 =
      EncResult.bytes d) :
    processMessage enc WriteOutcome.ok (Msg.obj (some (JVal.str name)) params) =
      ⟨Response.success name, [(CHAR_UUID, d)],
        [(name, (parseParams (params.getD [])).1, (parseParams (params.getD [])).2)]⟩ := by
  simp only [processMessage, resolveCommand, hreg, if_true]
  rw [henc]

/-- C4, witness: the end-to-end example of the spec - a registered
command set_brightness with parameter list ["80"] under an encoder
returning the bytes [5, 0, 128]. -/
theorem c4_witness :
    COMMANDS.contains "set_brightness" = true ∧
    processMessage (fun _ _ _ => EncResult.bytes [5, 0, 128]) WriteOutcome.ok
        (Msg.obj (some (JVal.str "set_brightness")) (some ["80"])) =
      ⟨Response.success "set_brightness", [(CHAR_UUID, [5, 0, 128])],
        [("set_brightness", ["80"], [])]⟩ :=
  ⟨by decide,
    c4_theorem (fun _ _ _ => EncResult.bytes [5, 0, 128]) "set_brightness"
      (some ["80"]) [5, 0, 128] (by decide) rfl⟩

/-! ## C6: unknown command -/

/-- C6, counterexample.  The claim says that for EVERY envelope whose
command field is missing or not a string the result is exactly the
response error "Unknown command".  For an unhashable non-string value
(a JSON array or object, e.g. the request with "command": []), the
membership test command_name in COMMANDS at line 53 itself raises a
TypeError, which the blanket handler of line 68 converts into an error
response carrying the TypeError text (in CPython: unhashable type:
followed by the quoted runtime type name) - a different message.  No
encoder is invoked and no write occurs, but the response is not the
claimed one. -/
theorem c6_counterexample :
    processMessage (fun _ _ _ => EncResult.bytes [1]) WriteOutcome.ok
        (Msg.obj (some (JVal.unhashable "unhashable type: list")) (some [])) =
      ⟨Response.error "unhashable type: list", [], []⟩ ∧
    (⟨Response.error "unhashable type: list", [], []⟩ : StepOut) ≠
      ⟨Response.error "Unknown command", [], []⟩ := by decide

/-- C6, amended: dispatch of an envelope whose command field is
missing, is a hashable non-string (a number, boolean or null), or is
an unregistered string produces exactly the response error
"Unknown command", invokes no encoder and performs no device write;
dispatch of an envelope whose command field is an unhashable
non-string (a JSON array or object) produces the response error
carrying the text of the TypeError raised by the membership test,
and likewise invokes no encoder and performs no device write. -/
theorem c6_theorem :
    (∀ enc wout command params, resolveCommand command = ResolveOutcome.notFound →
      processMessage enc wout (Msg.obj command params) =
        ⟨Response.error "Unknown command", [], []⟩) ∧
    resolveCommand none = ResolveOutcome.notFound ∧
    resolveCommand (some JVal.nonStrHashable) = ResolveOutcome.notFound ∧
    (∀ s, COMMANDS.contains s = false →
      resolveCommand (some (JVal.str s)) = ResolveOutcome.notFound) ∧
    (∀ enc wout e params,
      processMessage enc wout (Msg.obj (some (JVal.unhashable e)) params) =
        ⟨Response.error e, [], []⟩) := by
  refine ⟨?_, rfl, rfl, ?_, ?_⟩
  · intro enc wout command params h
    simp only [processMessage]
    rw [h]
  · intro s h
    simp only [resolveCommand, h, Bool.false_eq_true, if_false]
  · intro enc wout e params
    simp only [processMessage, resolveCommand]

/-- C6, witness: the spec's end-to-end example command "bogus" (an
unregistered name), a missing command field, and an unhashable command
field, under an arbitrary encoder environment. -/
theorem c6_witness :
    resolveCommand (some (JVal.str "bogus")) = ResolveOutcome.notFound ∧
    processMessage (fun _ _ _ => EncResult.bytes [1]) WriteOutcome.ok
        (Msg.obj (some (JVal.str "bogus")) (some [])) =
      ⟨Response.error "Unknown command", [], []⟩ ∧
    processMessage (fun _ _ _ => EncResult.bytes [1]) WriteOutcome.ok
        (Msg.obj none none) =
      ⟨Response.error "Unknown command", [], []⟩ ∧
    processMessage (fun _ _ _ => EncResult.bytes [1]) WriteOutcome.ok
        (Msg.obj (some (JVal.unhashable "unhashable type: dict")) none) =
      ⟨Response.error "unhashable type: dict", [], []⟩ :=
  ⟨by decide,
    c6_theorem.1 (fun _ _ _ => EncResult.bytes [1]) WriteOutcome.ok
      (some (JVal.str "bogus")) (some []) (by decide),
    c6_theorem.1 (fun _ _ _ => EncResult.bytes [1]) WriteOutcome.ok
      none none (by decide),
    c6_theorem.2.2.2.2 (fun _ _ _ => EncResult.bytes [1]) WriteOutcome.ok
      "unhashable type: dict" none⟩

/-! ## C7: encoder failure -/

/-- C7: dispatch of an envelope whose command name is registered but
whose encoder raises produces the response error with the raised
description, performs no device write (the write line is never
reached), and the receive loop is not terminated by the failure: for
any received message whose send succeeds, the loop unconditionally
proceeds to the next receive iteration, whatever response the pipeline
produced. -/
theorem c7_theorem :
    (∀ (enc : String → List String → List (String × String) → EncResult)
      wout name params e,
      COMMANDS.contains name = true →
      enc name (parseParams (params.getD [])).1 (parseParams (params.getD [])).2 =
        EncResult.raises e →
      processMessage enc wout (Msg.obj (some (JVal.str name)) params) =
        ⟨Response.error e, [],
          [(name, (parseParams (params.getD [])).1, (parseParams (params.getD [])).2)]⟩) ∧
    (∀ sc fuel tr m, sc.recv tr.recvs = RecvOutcome.msg m →
      sc.send tr.sends = true →
      sessionLoop sc (fuel + 1) tr = sessionLoop sc fuel
        { tr with
          recvs := tr.recvs + 1,
          responses := tr.responses ++
            [(processMessage sc.enc (sc.write tr.writes.length) m).response],
          writes := tr.writes ++ (processMessage sc.enc (sc.write tr.writes.length) m).writes,
          sends := tr.sends + 1 }) := by
  constructor
  · intro enc wout name params e hreg henc
    simp only [processMessage, resolveCommand, hreg, if_true]
    rw [henc]
  · intro sc fuel tr m hrecv hsend
    simp only [sessionLoop]
    rw [hrecv]
    simp only [hsend, if_true]

/-- C7, witness: a registered command whose encoder raises a
bad-argument error, and one loop step over that message. -/
theorem c7_witness :
    COMMANDS.contains "set_pixel" = true ∧
    processMessage (fun _ _ _ => EncResult.raises "missing argument") WriteOutcome.ok
        (Msg.obj (some (JVal.str "set_pixel")) (some ["3"])) =
      ⟨Response.error "missing argument", [], [("set_pixel", ["3"], [])]⟩ :=
  ⟨by decide,
    c7_theorem.1 (fun _ _ _ => EncResult.raises "missing argument") WriteOutcome.ok
      "set_pixel" (some ["3"]) "missing argument" (by decide) rfl⟩

/-! ## C1: behaviour on transport loss during a write -/

/-- A session in which the device connects on the first attempt, the
first received message is the registered command clear, that message's
write raises a BleakError, and the next receive reports the peer
closing the connection. -/
def c1Script : Script where
  connect := fun _ => COutcome.ok
  recv := fun n =>
    if n = 0 then RecvOutcome.msg (Msg.obj (some (JVal.str "clear")) (some []))
    else RecvOutcome.closed
  write := fun _ => WriteOutcome.bleakError "BLE device disconnected"
  send := fun _ => true
  enc := fun _ _ _ => EncResult.bytes [6, 1]
  disconnectOk := fun _ => true

def trInit : Trace := ⟨0, 0, 0, [], [], 0, 0⟩

/-- C1, counterexample.  The claim says a transport loss makes the
server loop discard the handle, re-run acquisition and replay the same
in-flight message, capped at a small number of recoveries.  In the
source, the BleakError raised by write_gatt_char at line 64 is consumed
by the blanket except Exception at line 68 - the except BleakError
reconnect handler at line 74 only guards recv/send, which raise
websockets exceptions, never BleakError.  Concretely: with the write of
the in-flight clear command raising a BleakError, the whole session
performs exactly ONE connect attempt (no re-acquisition), answers the
in-flight message with an error response (no replay), and simply keeps
iterating until the peer closes. -/
theorem c1_counterexample :
    handle_websocket c1Script 3 6 5 trInit =
      (⟨1, 0, 2, [Response.error "BLE device disconnected"],
        [(CHAR_UUID, [6, 1])], 1, 1⟩, HwEnd.normal) := by decide

/-- C1, amended: a BleakError during the device write is caught by the
per-message blanket exception handler and reported as an error
response, indistinguishably from any other exception, after which the
loop resumes receiving with the same handle.  Formally: (1) the receive
loop never starts a connect attempt, so no re-acquisition ever happens
during iteration; (2) no BleakError ever escapes the loop body, so the
recursive reconnect-and-replay branch of line 76 is unreachable; and
(3) the pipeline's output on a write raising a BleakError is identical
to its output on the same write raising any other exception - there is
no replay and no recovery cap anywhere. -/
theorem c1_amended :
    (∀ sc fuel tr, ((sessionLoop sc fuel tr).1).connectAttempts = tr.connectAttempts) ∧
    (∀ sc fuel tr, ((sessionLoop sc fuel tr).2).isBleakLost = false) ∧
    (∀ enc e m, processMessage enc (WriteOutcome.bleakError e) m =
      processMessage enc (WriteOutcome.otherExn e) m) := by
  refine ⟨fun sc fuel tr => (sessionLoop_preserves sc fuel tr).1,
    fun sc fuel tr => (sessionLoop_preserves sc fuel tr).2.2, ?_⟩
  intro enc e m
  cases m with
  | malformed e2 => rfl
  | obj command params => simp only [processMessage]

/-! ## C8: release of the device session -/

/-- A session whose device connects first try, whose peer closes
immediately, and whose disconnect call raises. -/
def c8failScript : Script where
  connect := fun _ => COutcome.ok
  recv := fun _ => RecvOutcome.closed
  write := fun _ => WriteOutcome.ok
  send := fun _ => true
  enc := fun _ _ _ => EncResult.bytes []
  disconnectOk := fun _ => false

/-- A session whose device connects first try, whose peer closes
immediately, and whose disconnect succeeds. -/
def c8okScript : Script where
  connect := fun _ => COutcome.ok
  recv := fun _ => RecvOutcome.closed
  write := fun _ => WriteOutcome.ok
  send := fun _ => true
  enc := fun _ _ _ => EncResult.bytes []
  disconnectOk := fun _ => true

/-- C8, counterexample.  The claim says any error raised during the
disconnect is swallowed and the session is considered released
regardless.  In the source both finally blocks (lines 77-78 and
106-107) execute a bare await client.disconnect() with no handler
around it: in one-shot mode, with a disconnect that raises, the
exception becomes the outcome of the whole execute_command call (it
propagates to asyncio.run), and the same holds for handle_websocket.
Here the one disconnect call was issued but its error terminates the
interaction instead of being swallowed. -/
theorem c8_counterexample :
    execute_command c8failScript "bogus" [] 6 =
      (⟨1, 0, 0, [], [], 0, 1⟩, ExecEnd.disconnectRaised) := by decide

/-- C8, amended: on every exit path reached after a device session was
acquired - in server mode, normal loop exit or a disconnect failure; in
one-shot mode, success, unknown command, encoder failure, write failure
or disconnect failure - the disconnect of the finally block is invoked
(exactly once per one-shot call); but an error raised by that
disconnect propagates out of the session as its outcome instead of
being swallowed. -/
theorem c8_amended :
    (∀ sc rfuel cfuel lfuel tr,
      ((handle_websocket sc rfuel cfuel lfuel tr).2).acquired = true →
      tr.disconnects < ((handle_websocket sc rfuel cfuel lfuel tr).1).disconnects) ∧
    (∀ sc name params cfuel,
      ((execute_command sc name params cfuel).2).acquired = true →
      ((execute_command sc name params cfuel).1).disconnects = 1) := by
  constructor
  · intro sc rfuel cfuel lfuel tr
    cases rfuel with
    | zero => intro h; simp [handle_websocket, HwEnd.acquired] at h
    | succ rfuel =>
      rcases hc : connect_to_device sc.connect 5 cfuel 0 tr.connectAttempts tr.sleeps with
        ⟨i, s⟩ | ⟨i, s⟩ | ⟨i, s⟩ | ⟨i, s⟩
      · rcases hs : sessionLoop sc lfuel { tr with connectAttempts := i, sleeps := s }
          with ⟨tr1, se⟩
        have hpres := sessionLoop_preserves sc lfuel { tr with connectAttempts := i, sleeps := s }
        rw [hs] at hpres
        cases se with
        | closedByPeer =>
          intro _
          simp only [handle_websocket, hc, hs]
          have hd : tr1.disconnects = tr.disconnects := hpres.2.1
          simp [hd]
        | bleakLost =>
          exact absurd hpres.2.2 (by simp [SessEnd.isBleakLost])
        | outOfFuel =>
          intro h
          simp only [handle_websocket, hc, hs] at h
          simp [HwEnd.acquired] at h
      · intro h
        simp only [handle_websocket, hc] at h
        simp [HwEnd.acquired] at h
      · intro h
        simp only [handle_websocket, hc] at h
        simp [HwEnd.acquired] at h
      · intro h
        simp only [handle_websocket, hc] at h
        simp [HwEnd.acquired] at h
  · intro sc name params cfuel
    rcases hc : connect_to_device sc.connect 5 cfuel 0 0 0 with
      ⟨i, s⟩ | ⟨i, s⟩ | ⟨i, s⟩ | ⟨i, s⟩
    · intro _
      simp [execute_command, hc]
    · intro h
      simp only [execute_command, hc] at h
      simp [ExecEnd.acquired] at h
    · intro h
      simp only [execute_command, hc] at h
      simp [ExecEnd.acquired] at h
    · intro h
      simp only [execute_command, hc] at h
      simp [ExecEnd.acquired] at h

/-- C8, witness: both conjuncts of the amended theorem applied to a
session that connects first try and is closed by the peer at once,
with a well-behaved disconnect. -/
theorem c8_witness :
    (((handle_websocket c8okScript 1 6 1 trInit).2).acquired = true ∧
      trInit.disconnects < ((handle_websocket c8okScript 1 6 1 trInit).1).disconnects) ∧
    (((execute_command c8okScript "clear" [] 6).2).acquired = true ∧
      ((execute_command c8okScript "clear" [] 6).1).disconnects = 1) :=
  ⟨⟨by decide, c8_amended.1 c8okScript 1 6 1 trInit (by decide)⟩,
    ⟨by decide, c8_amended.2 c8okScript "clear" [] 6 (by decide)⟩⟩

/-! ## C9: invocation with neither mode flag -/

/-- C9, counterexample.  The claim says that with neither the server
flag nor the one-shot command flag the process prints a usage error
and exits with a NON-ZERO status.  In the source the no-mode branch
(lines 125-126) prints the error and then simply falls off the end of
the script - there is no sys.exit call - so the interpreter exits with
status 0.  No device connection is attempted (the action is the usage
error, not a server start or a command run). -/
theorem c9_counterexample :
    mainRun { server := false, port := 4444, command := none,
              address := "AA:BB:CC:DD:EE:FF" } = (MainAction.usageError, 0) := by decide

/-- C9, amended: if an invocation supplies neither the server-mode
flag nor the one-shot command flag, the process prints a usage error
and makes no device connection attempt, but it exits with status 0,
not a non-zero status. -/
theorem c9_amended (a : Args) (hs : a.server = false) (hc : a.command = none) :
    mainRun a = (MainAction.usageError, 0) := by
  simp [mainRun, hs, hc]

/-- C9, witness: the amended theorem applied to an invocation carrying
only the required address flag. -/
theorem c9_witness :
    ({ server := false, port := 4444, command := none,
       address := "AA:BB:CC:DD:EE:FF" } : Args).server = false ∧
    mainRun { server := false, port := 4444, command := none,
              address := "AA:BB:CC:DD:EE:FF" } = (MainAction.usageError, 0) :=
  ⟨rfl, c9_amended _ rfl rfl⟩

/-! ## C10: server binds localhost only -/

/-- C10: every server-mode invocation starts the WebSocket server on
the fixed host "localhost" with the port taken from the -p flag (whose
argparse default is 4444): the host is a literal in the main block, so
no combination of CLI flags can make the server listen on a
non-loopback interface. -/
theorem c10_theorem :
    (∀ a : Args, a.server = true →
      (mainRun a).1 = MainAction.startServer "localhost" a.port a.address) ∧
    defaultPort = 4444 := by
  refine ⟨?_, rfl⟩
  intro a h
  simp [mainRun, h]

/-- C10, witness: the theorem applied to a server invocation with a
custom port. -/
theorem c10_witness :
    ({ server := true, port := 8080, command := none, address := "X" } : Args).server
        = true ∧
    (mainRun { server := true, port := 8080, command := none, address := "X" }).1 =
      MainAction.startServer "localhost" 8080 "X" :=
  ⟨rfl, c10_theorem.1 _ rfl⟩

end IPixel
